import Mathlib

/-!
Verification of the request metering and fee-calculation pipeline of the
eliza-overlay-sandbox worker: a shallow embedding of the pricing service
(src/src/services/pricing.ts), auth service (src/src/services/auth.ts),
request validation and response construction (src/src/services/proxy.ts),
usage recording (src/src/services/usage.ts, appended to agent.ts in this
snapshot), and the request pipeline handleAgentChat (src/src/index.ts and
the variant worker at src/unnamed/part_004).

Modelling conventions:
* JavaScript numbers are modelled as `Option ℚ`: `some q` is the finite
  number `q` and `none` is NaN.  All numeric sources in this code path
  (JSON blobs, SQLite REAL columns, token counts) are finite, so the NaN
  channel is entered only through `parseFloat` of a malformed
  SANDBOX_FEE_RATE, which is passed in already parsed as a `JNum`.
  Divisors in this development are the nonzero constants 1000 and 10000
  (and a token total); a zero divisor is collapsed to the NaN marker.
* `Math.round x` on a finite number is `⌊x + 1/2⌋` (ties toward +∞),
  and NaN on NaN.
* Each `await`ed external effect (D1 query, KV get, upstream call, insert)
  is resolved by an explicit input describing its outcome, and the
  in-process cache is threaded as explicit state.
* Serialisation of a number into a response header string is represented
  by the number itself (`HdrVal.num`); number-to-string conversion is
  injective, so nothing is lost for the properties proved here.
-/

/-- JavaScript number: `some q` is a finite value, `none` is NaN. -/
def JNum : Type := Option ℚ

instance : DecidableEq JNum := by
  unfold JNum
  infer_instance

/-- Lift a rational to a (finite) JavaScript number. -/
def JNum.fin (q : ℚ) : JNum := some q

/-- JavaScript NaN. -/
def JNum.nan : JNum := none

/-- JavaScript addition: NaN-absorbing. -/
def jAdd : JNum → JNum → JNum
  | some a, some b => some (a + b)
  | _, _ => none

/-- JavaScript multiplication: NaN-absorbing (no infinities arise here). -/
def jMul : JNum → JNum → JNum
  | some a, some b => some (a * b)
  | _, _ => none

/-- JavaScript division.  All divisors used in this development are
nonzero; a zero divisor (JS Infinity/NaN) is collapsed to the NaN marker. -/
def jDiv : JNum → JNum → JNum
  | some a, some b => if b = 0 then none else some (a / b)
  | _, _ => none

/-- `Math.round`: nearest integer with ties toward +∞ on finite input,
NaN on NaN. -/
def jRound : JNum → JNum
  | some a => some ((Rat.floor (a + 1/2) : ℤ) : ℚ)
  | none => none

/-- PricingService.round4 (pricing.ts:110-112):
`Math.round(value * 10000) / 10000`. -/
def round4 (value : JNum) : JNum :=
  jDiv (jRound (jMul value (some 10000))) (some 10000)

/-- The finite-input core of `round4`. -/
def round4q (x : ℚ) : ℚ := ((⌊x * 10000 + 1/2⌋ : ℤ) : ℚ) / 10000

/-- ModelPricing (types.ts): per-1k-token USD rates.  These come from a
SQLite REAL column or a parsed JSON blob, hence are finite numbers. -/
structure ModelPricing where
  input_per_1k_usd : ℚ
  output_per_1k_usd : ℚ
deriving DecidableEq

/-- PricingData (types.ts): mapping from model name to its pricing, as the
parsed JSON object of the KV `PRICING_V1` blob (keys assumed unique, as
in the shipped blob; property access `data[model]` is `List.lookup`). -/
def PricingData : Type := List (String × ModelPricing)

instance : DecidableEq PricingData := by
  unfold PricingData
  infer_instance

/-- The private mutable fields of PricingService (pricing.ts:4-5):
`pricingCache` and `cacheExpiry` (milliseconds since epoch). -/
structure CacheState where
  pricingCache : Option PricingData
  cacheExpiry : ℤ
deriving DecidableEq

/-- PricingService.CACHE_TTL_MS (pricing.ts:6): 5 minutes. -/
def CACHE_TTL_MS : ℤ := 5 * 60 * 1000

/-- Outcome of the KV read + JSON parse inside getDefaultPricing:
`missing` when `env.PRICING.get` resolves null, `ok d` when it yields a
blob parsing to `d`, `error` when the get or the parse throws. -/
inductive FetchResult
  | missing
  | ok (data : PricingData)
  | error
deriving DecidableEq

/-- Result of one getDefaultPricing call: the returned table, the
updated private cache state, and whether the external KV store was
consulted (i.e. whether control reached the `await this.env.PRICING.get`
on pricing.ts:91). -/
structure FetchStep where
  data : PricingData
  state : CacheState
  fetched : Bool
deriving DecidableEq

/-- The fetch branch of getDefaultPricing (pricing.ts:90-104): on a null
blob it warns and returns `{}` leaving the cache untouched; on success it
stores the parsed table and sets `cacheExpiry = now + CACHE_TTL_MS`; a
thrown error is caught and yields `{}` with the cache untouched. -/
def fetchFreshPricing (s : CacheState) (now : ℤ) (kv : FetchResult) : FetchStep :=
  match kv with
  | .missing => ⟨[], s, true⟩
  | .ok d => ⟨d, ⟨some d, now + CACHE_TTL_MS⟩, true⟩
  | .error => ⟨[], s, true⟩

/-- PricingService.getDefaultPricing (pricing.ts:83-105): serve the cache
when `pricingCache` is non-null and `now < cacheExpiry`, otherwise fetch
from KV. -/
def getDefaultPricing (s : CacheState) (now : ℤ) (kv : FetchResult) : FetchStep :=
  match s.pricingCache with
  | some c => if now < s.cacheExpiry then ⟨c, s, false⟩ else fetchFreshPricing s now kv
  | none => fetchFreshPricing s now kv

/-- PricingService.getModelPricing (pricing.ts:56-78): first the D1
`pricing_overrides` row (`WHERE model = ? LIMIT 1`, exact string match,
first row wins), then the cached KV table (`defaultPricing[model] || null`).
`dbError` resolves the D1 query's failure channel: a thrown query error is
caught and yields null.  The Bool of the result records whether the KV
store was consulted. -/
def getModelPricing (dbError : Bool) (overrides : List (String × ModelPricing))
    (s : CacheState) (now : ℤ) (kv : FetchResult) (model : String) :
    Option ModelPricing × CacheState × Bool :=
  if dbError then (none, s, false)
  else
    match overrides.lookup model with
    | some ov => (some ov, s, false)
    | none =>
      let step := getDefaultPricing s now kv
      (step.data.lookup model, step.state, step.fetched)

/-- SandboxFeeCalculation (types.ts): the three output fields of the fee
calculator, as JavaScript numbers. -/
structure SandboxFeeCalculation where
  base_cost_usd : JNum
  platform_fee_usd : JNum
  total_cost_usd : JNum
deriving DecidableEq

/-- The zero-cost result returned when no pricing is known
(pricing.ts:23-27) or when the catch branch runs (pricing.ts:45-49). -/
def zeroFee : SandboxFeeCalculation := ⟨some 0, some 0, some 0⟩

/-- PricingService.calculateSandboxFee (pricing.ts:13-51).
`feeRate` is `parseFloat(env.SANDBOX_FEE_RATE)` (NaN when the configured
string does not parse; `parseFloat` never throws).  Token counts come
from upstream JSON and are finite.  No expression in the `try` body can
throw once the awaited getModelPricing outcome is resolved — the D1/KV
failure channels are caught inside getModelPricing/getDefaultPricing —
so the catch branch (pricing.ts:43-50) is unreachable in this model. -/
def calculateSandboxFee (dbError : Bool) (overrides : List (String × ModelPricing))
    (s : CacheState) (now : ℤ) (kv : FetchResult) (feeRate : JNum)
    (model : String) (promptTokens completionTokens : ℚ) :
    SandboxFeeCalculation × CacheState :=
  match getModelPricing dbError overrides s now kv model with
  | (none, s', _) => (zeroFee, s')
  | (some pricing, s', _) =>
    let promptCost : ℚ := promptTokens / 1000 * pricing.input_per_1k_usd
    let completionCost : ℚ := completionTokens / 1000 * pricing.output_per_1k_usd
    let baseCost : ℚ := promptCost + completionCost
    let platformFee : JNum := jMul (some baseCost) feeRate
    let totalCost : JNum := jAdd (some baseCost) platformFee
    (⟨round4 (some baseCost), round4 platformFee, round4 totalCost⟩, s')

/-- A row of the `cloud_api_keys` allow-list (schema in
src/unnamed/part_005); validateApiKey reads only `id` and `key`. -/
structure ApiKeyRecord where
  id : String
  key : String
deriving DecidableEq

/-- AuthResult (types.ts) as returned by AuthService.validateApiKey:
either `{success: true, keyId, apiKey}` or `{success: false, error}`. -/
inductive AuthResult
  | ok (keyId apiKey : String)
  | err (msg : String)
deriving DecidableEq

/-- JS truthiness of a nullable string: null and the empty string are
falsy. -/
def strTruthy : Option String → Bool
  | some s => s != ""
  | none => false

/-- JS `a || b` where `a` is a nullable string. -/
def strOrElse (a : Option String) (b : String) : String :=
  match a with
  | some s => if s != "" then s else b
  | none => b

/-- JS `s.startsWith(p)`: `p`'s code units lead `s`'s. -/
def strStartsWith (s p : String) : Bool :=
  p.data.isPrefixOf s.data

/-- JS `s.slice(n)` for non-negative `n`: drop the first `n` code
units. -/
def strDrop (s : String) (n : ℕ) : String :=
  ⟨s.data.drop n⟩

/-- AuthService.extractApiKey (auth.ts:37-51): `Authorization: Bearer `
first, then the X-Eliza-Cloud-Key header (whose empty string is falsy). -/
def extractApiKey (authHeader keyHeader : Option String) : Option String :=
  match authHeader with
  | some a =>
    if strStartsWith a "Bearer " then some (strDrop a 7)
    else if strTruthy keyHeader then keyHeader else none
  | none => if strTruthy keyHeader then keyHeader else none

/-- AuthService.validateApiKey (auth.ts:9-32).  `dbError` resolves the D1
query's failure channel (caught, yielding the "Authentication failed"
result).  The lookup is `WHERE key = ? LIMIT 1`: the first row whose
`key` column equals the presented key exactly. -/
def validateApiKey (dbError : Bool) (allowList : List ApiKeyRecord)
    (authHeader keyHeader : Option String) : AuthResult :=
  match extractApiKey authHeader keyHeader with
  | none => .err "Missing API key"
  | some apiKey =>
    if apiKey = "" then .err "Missing API key"
    else if dbError then .err "Authentication failed"
    else
      match allowList.find? (fun r => r.key == apiKey) with
      | none => .err "Invalid API key"
      | some r => .ok r.id apiKey

/-- A parsed JSON value, as produced by `request.json()`. -/
inductive JsonValue
  | null
  | bool (b : Bool)
  | num (q : ℚ)
  | str (s : String)
  | arr (elems : List JsonValue)
  | obj (fields : List (String × JsonValue))

/-- JS truthiness of a JSON value (NaN cannot occur in parsed JSON). -/
def jTruthy : JsonValue → Bool
  | .null => false
  | .bool b => b
  | .num q => q != 0
  | .str s => s != ""
  | .arr _ => true
  | .obj _ => true

/-- `typeof v === 'object'` for a parsed JSON value: true exactly for
null, arrays and objects. -/
def jsTypeofIsObject : JsonValue → Bool
  | .null => true
  | .arr _ => true
  | .obj _ => true
  | _ => false

/-- JS property access `v[k]`: defined only on an object's own key
(parsed JSON objects have unique keys); otherwise undefined. -/
def getField : JsonValue → String → Option JsonValue
  | .obj fields, k => (fields.find? (fun p => p.1 == k)).map (fun p => p.2)
  | _, _ => none

/-- Truthiness of `v[k]`, with undefined falsy. -/
def fieldTruthy (v : JsonValue) (k : String) : Bool :=
  match getField v k with
  | some x => jTruthy x
  | none => false

/-- `typeof v[k] === 'string'`. -/
def isStringField (v : JsonValue) (k : String) : Bool :=
  match getField v k with
  | some (.str _) => true
  | _ => false

/-- The `{valid, error?}` object returned by validateChatRequest. -/
structure ValidationResult where
  valid : Bool
  error : Option String
deriving DecidableEq

/-- ProxyService.validateChatRequest (proxy.ts:91-112). -/
def validateChatRequest (body : JsonValue) : ValidationResult :=
  if !jTruthy body || !jsTypeofIsObject body then
    ⟨false, some "Request body must be a JSON object"⟩
  else if !fieldTruthy body "model" || !isStringField body "model" then
    ⟨false, some "Missing or invalid model field"⟩
  else
    match getField body "messages" with
    | some (.arr ms) =>
      if ms.isEmpty then ⟨false, some "Messages must be a non-empty array"⟩
      else if ms.all (fun m => fieldTruthy m "role" && fieldTruthy m "content") then
        ⟨true, none⟩
      else ⟨false, some "Each message must have role and content fields"⟩
    | _ => ⟨false, some "Messages must be a non-empty array"⟩

/-- A response header value: either a plain string or the `toString()`
of a JS number, represented by the number itself. -/
inductive HdrVal
  | str (s : String)
  | num (v : JNum)
deriving DecidableEq

/-- The usage block of the synthesized chat response (index.ts:139-146,
costs filled by index.ts:157-159). -/
structure ElizaUsage where
  prompt_tokens : ℚ
  completion_tokens : ℚ
  total_tokens : ℚ
  prompt_cost : JNum
  completion_cost : JNum
  total_cost : JNum
deriving DecidableEq

/-- The chat-completion-shaped body synthesized by handleAgentChat
(index.ts:124-147): the fields this development reads. -/
structure ElizaResp where
  id : String
  created : ℤ
  model : String
  content : String
  usage : ElizaUsage
deriving DecidableEq

/-- A response body: a chat completion or the `{error: {type, message}}`
object of createErrorResponse. -/
inductive RespBody
  | chat (resp : ElizaResp)
  | errorBody (typ msg : String)
deriving DecidableEq

/-- A Worker `Response`: status, ordered headers, body. -/
structure HttpResponse where
  status : ℕ
  headers : List (String × HdrVal)
  body : RespBody
deriving DecidableEq

/-- ProxyService.createResponseWithHeaders (proxy.ts:58-86). -/
def createResponseWithHeaders (elizaResponse : ElizaResp)
    (feeCalculation : SandboxFeeCalculation) (requestId : Option String) :
    HttpResponse :=
  { status := 200
    headers :=
      [("Content-Type", .str "application/json"),
       ("Access-Control-Allow-Origin", .str "*"),
       ("Access-Control-Allow-Methods", .str "GET, POST, OPTIONS"),
       ("Access-Control-Allow-Headers",
         .str "Content-Type, Authorization, X-Eliza-Cloud-Key"),
       ("Access-Control-Expose-Headers",
         .str "X-Eliza-Sandbox-Base-Cost-USD, X-Eliza-Sandbox-Fee-USD, X-Eliza-Sandbox-Total-USD, X-Eliza-Cloud-Request-Id"),
       ("X-Eliza-Sandbox-Base-Cost-USD", .num feeCalculation.base_cost_usd),
       ("X-Eliza-Sandbox-Fee-USD", .num feeCalculation.platform_fee_usd),
       ("X-Eliza-Sandbox-Total-USD", .num feeCalculation.total_cost_usd)] ++
      (if strTruthy requestId || elizaResponse.id != "" then
        [("X-Eliza-Cloud-Request-Id", .str (strOrElse requestId elizaResponse.id))]
      else [])
    body := .chat elizaResponse }

/-- The `type` field of createErrorResponse (index.ts:206):
`error.toLowerCase().replace(/\s+/g, '_')` (titles here are
single-spaced). -/
def errorTypeOf (error : String) : String :=
  String.map (fun c => if c = ' ' then '_' else c) error.toLower

/-- createErrorResponse (index.ts:202-218). -/
def createErrorResponse (status : ℕ) (error msg : String) : HttpResponse :=
  { status := status
    headers := [("Content-Type", .str "application/json"),
                ("Access-Control-Allow-Origin", .str "*")]
    body := .errorBody (errorTypeOf error) msg }

/-- A row of the `usage_events` ledger (schema in src/unnamed/part_005),
as assembled by UsageService.recordUsage (usage service, lines 295-350 of
the agent.ts snapshot). -/
structure UsageEvent where
  id : String
  ts : ℤ
  cloud_key_id : String
  session_id : Option String
  model : String
  prompt_tokens : ℚ
  completion_tokens : ℚ
  base_cost_usd : JNum
  platform_fee_usd : JNum
  total_cost_usd : JNum
  request_id : String
  meta : Option String
deriving DecidableEq

/-- The usageEvent object of recordUsage: the caller-supplied requestId
is both `id` and `request_id`; `ts` is epoch seconds; `meta` is the
serialized metadata (null when absent). -/
def buildUsageEvent (keyId : String) (sessionId : Option String) (model : String)
    (usage : ElizaUsage) (feeCalculation : SandboxFeeCalculation)
    (requestId : String) (nowSec : ℤ) (metadata : Option String) : UsageEvent :=
  { id := requestId
    ts := nowSec
    cloud_key_id := keyId
    session_id := sessionId
    model := model
    prompt_tokens := usage.prompt_tokens
    completion_tokens := usage.completion_tokens
    base_cost_usd := feeCalculation.base_cost_usd
    platform_fee_usd := feeCalculation.platform_fee_usd
    total_cost_usd := feeCalculation.total_cost_usd
    request_id := requestId
    meta := metadata }

/-- UsageService.recordUsage: builds the row and runs the D1 insert;
on success it logs `result.success`, and a thrown storage failure is
caught and logged.  The Except return type exposes the failure channel
a rejected promise would use. -/
def recordUsage (keyId : String) (sessionId : Option String) (model : String)
    (usage : ElizaUsage) (feeCalculation : SandboxFeeCalculation)
    (requestId : String) (metadata : Option String) (nowSec : ℤ)
    (insertOutcome : Except String Bool) : Except String Unit :=
  let _row := buildUsageEvent keyId sessionId model usage feeCalculation
    requestId nowSec metadata
  match insertOutcome with
  | .ok _success => .ok ()
  | .error _e => .ok ()

/-- UsageService.extractSessionId: `url.searchParams.get('session')`;
the URL constructor cannot fail on a Worker request URL, so the catch
branch returning null is not exercised. -/
def extractSessionId (sessionParam : Option String) : Option String :=
  sessionParam

/-- Whether `pat` occurs as a contiguous run inside the character list. -/
def charsInclude (pat : List Char) : List Char → Bool
  | [] => pat.isPrefixOf []
  | c :: rest => pat.isPrefixOf (c :: rest) || charsInclude pat rest

/-- JS `s.includes(pat)`. -/
def strIncludes (s pat : String) : Bool :=
  charsInclude pat.toList s.toList

/-- The outer catch of handleAgentChat (index.ts:182-196): map the
thrown error's message onto 502 / 503 / 500. -/
def agentChatCatch (msg : String) : HttpResponse :=
  if strIncludes msg "ElizaOS Cloud API error" then
    createErrorResponse 502 "Bad Gateway" "Upstream API error"
  else if strIncludes msg "Failed to proxy request" then
    createErrorResponse 503 "Service Unavailable" "Unable to reach upstream API"
  else
    createErrorResponse 500 "Internal Server Error" "Request processing failed"

/-- The AgentResponse produced by agentService.processMessage
(agent.ts:48-152); processMessage catches its own errors and always
resolves with a value of this shape. -/
structure AgentResponseM where
  id : String
  text : String
  model : String
  prompt_tokens : ℚ
  completion_tokens : ℚ
  total_tokens : ℚ

/-- Configuration and awaited external outcomes consumed by one
handleAgentChat invocation. -/
structure PipelineEnv where
  allowList : List ApiKeyRecord
  authDbError : Bool
  overrides : List (String × ModelPricing)
  overrideDbError : Bool
  cache : CacheState
  nowMs : ℤ
  kv : FetchResult
  feeRate : JNum
  initError : Option String

/-- One inbound request: headers, query, body-parse outcome, and the
agent reply the upstream call resolves to. -/
structure ChatRequest where
  method : String
  authHeader : Option String
  keyHeader : Option String
  sessionParam : Option String
  body : Except Unit JsonValue
  agent : AgentResponseM
  nowSec : ℤ
  metadata : String

/-- Everything one handleAgentChat run produces: the HTTP response, what
it touched (pricing, the scheduled recording and its row), the outcome
of the scheduled recording task, and the pricing cache afterwards. -/
structure PipelineResult where
  response : HttpResponse
  pricingCalled : Bool
  recordScheduled : Bool
  recordedEvent : Option UsageEvent
  recordOutcome : Except String Unit
  cacheAfter : CacheState

/-- Lines 124-147 and 157-159 of index.ts: the synthesized
chat-completion response with its usage costs filled in from the fee
(the per-part costs divide by `total_tokens`, NaN when that is zero). -/
def buildElizaResp (agent : AgentResponseM) (nowSec : ℤ)
    (fee : SandboxFeeCalculation) : ElizaResp :=
  { id := agent.id
    created := nowSec
    model := agent.model
    content := agent.text
    usage :=
      { prompt_tokens := agent.prompt_tokens
        completion_tokens := agent.completion_tokens
        total_tokens := agent.total_tokens
        prompt_cost := jMul fee.base_cost_usd
          (jDiv (some agent.prompt_tokens) (some agent.total_tokens))
        completion_cost := jMul fee.base_cost_usd
          (jDiv (some agent.completion_tokens) (some agent.total_tokens))
        total_cost := fee.total_cost_usd } }

/-- handleAgentChat of src/src/index.ts (lines 73-197).  `insertOutcome`
resolves the D1 insert inside the usage-recording task handed to
`ctx.waitUntil`; the response is produced without awaiting that task. -/
def handleAgentChat (env : PipelineEnv) (req : ChatRequest)
    (insertOutcome : Except String Bool) : PipelineResult :=
  if req.method != "POST" then
    ⟨createErrorResponse 405 "Method Not Allowed" "Only POST requests are allowed",
      false, false, none, .ok (), env.cache⟩
  else
    match validateApiKey env.authDbError env.allowList req.authHeader req.keyHeader with
    | .err e =>
      ⟨createErrorResponse 401 "Unauthorized" (strOrElse (some e) "Invalid API key"),
        false, false, none, .ok (), env.cache⟩
    | .ok keyId _apiKey =>
      match req.body with
      | .error _ =>
        ⟨createErrorResponse 400 "Bad Request" "Invalid JSON body",
          false, false, none, .ok (), env.cache⟩
      | .ok requestBody =>
        let validation := validateChatRequest requestBody
        if !validation.valid then
          ⟨createErrorResponse 400 "Bad Request" (strOrElse validation.error "Invalid request"),
            false, false, none, .ok (), env.cache⟩
        else
          match env.initError with
          | some m => ⟨agentChatCatch m, false, false, none, .ok (), env.cache⟩
          | none =>
            let sessionId := extractSessionId req.sessionParam
            let agent := req.agent
            let feeStep := calculateSandboxFee env.overrideDbError env.overrides
              env.cache env.nowMs env.kv env.feeRate agent.model
              agent.prompt_tokens agent.completion_tokens
            let elizaResponse := buildElizaResp agent req.nowSec feeStep.1
            let ev := buildUsageEvent keyId sessionId agent.model
              elizaResponse.usage feeStep.1 agent.id req.nowSec (some req.metadata)
            let outcome := recordUsage keyId sessionId agent.model
              elizaResponse.usage feeStep.1 agent.id (some req.metadata)
              req.nowSec insertOutcome
            ⟨createResponseWithHeaders elizaResponse feeStep.1 (some agent.id),
              true, true, some ev, outcome, feeStep.2⟩

/-- handleAgentChat of the variant worker src/unnamed/part_004
(lines 104-226): identical to the src/src/index.ts handler except that
the session id receives the sentinel default
(`usageService.extractSessionId(request) || 'default-session'`,
part_004:141; the userId fallback on part_004:152 only feeds
processMessage, which is resolved by `req.agent`). -/
def handleAgentChatV4 (env : PipelineEnv) (req : ChatRequest)
    (insertOutcome : Except String Bool) : PipelineResult :=
  if req.method != "POST" then
    ⟨createErrorResponse 405 "Method Not Allowed" "Only POST requests are allowed",
      false, false, none, .ok (), env.cache⟩
  else
    match validateApiKey env.authDbError env.allowList req.authHeader req.keyHeader with
    | .err e =>
      ⟨createErrorResponse 401 "Unauthorized" (strOrElse (some e) "Invalid API key"),
        false, false, none, .ok (), env.cache⟩
    | .ok keyId _apiKey =>
      match req.body with
      | .error _ =>
        ⟨createErrorResponse 400 "Bad Request" "Invalid JSON body",
          false, false, none, .ok (), env.cache⟩
      | .ok requestBody =>
        let validation := validateChatRequest requestBody
        if !validation.valid then
          ⟨createErrorResponse 400 "Bad Request" (strOrElse validation.error "Invalid request"),
            false, false, none, .ok (), env.cache⟩
        else
          match env.initError with
          | some m => ⟨agentChatCatch m, false, false, none, .ok (), env.cache⟩
          | none =>
            let sessionId : String :=
              strOrElse (extractSessionId req.sessionParam) "default-session"
            let agent := req.agent
            let feeStep := calculateSandboxFee env.overrideDbError env.overrides
              env.cache env.nowMs env.kv env.feeRate agent.model
              agent.prompt_tokens agent.completion_tokens
            let elizaResponse := buildElizaResp agent req.nowSec feeStep.1
            let ev := buildUsageEvent keyId (some sessionId) agent.model
              elizaResponse.usage feeStep.1 agent.id req.nowSec (some req.metadata)
            let outcome := recordUsage keyId (some sessionId) agent.model
              elizaResponse.usage feeStep.1 agent.id (some req.metadata)
              req.nowSec insertOutcome
            ⟨createResponseWithHeaders elizaResponse feeStep.1 (some agent.id),
              true, true, some ev, outcome, feeStep.2⟩

/-- Modelled from the claim C6 wording, for comparison with the code:
the body is an object whose model field is a non-empty string and whose
messages field is a non-empty array in which every message HAS both a
role and a content field (mere presence of the fields). -/
def claimedChatRequestOk (body : JsonValue) : Bool :=
  (match body with | .obj _ => true | _ => false) &&
  (match getField body "model" with
   | some (.str s) => s != ""
   | _ => false) &&
  (match getField body "messages" with
   | some (.arr ms) =>
     !ms.isEmpty &&
       ms.all (fun m => (getField m "role").isSome && (getField m "content").isSome)
   | _ => false)

/-- The acceptance condition validateChatRequest actually decides
(amended claim C6): as claimed, except that every message's role and
content values must be truthy (present and non-empty / non-zero /
non-false / non-null), not merely present. -/
def acceptedChatRequest (body : JsonValue) : Bool :=
  (match body with | .obj _ => true | _ => false) &&
  (match getField body "model" with
   | some (.str s) => s != ""
   | _ => false) &&
  (match getField body "messages" with
   | some (.arr ms) =>
     !ms.isEmpty &&
       ms.all (fun m => fieldTruthy m "role" && fieldTruthy m "content")
   | _ => false)

theorem ratFloor_eq_floor (y : ℚ) : Rat.floor y = ⌊y⌋ := by
  rw [Rat.floor_def', Rat.floor_def]

theorem round4_fin (x : ℚ) : round4 (some x) = some (round4q x) := by
  simp [round4, round4q, jDiv, jRound, jMul, ratFloor_eq_floor]

theorem floor_half_add_lower (x y : ℚ) :
    ⌊x + 1/2⌋ + ⌊y + 1/2⌋ - 1 ≤ ⌊x + y + 1/2⌋ := by
  apply Int.le_floor.mpr
  have h1 := Int.floor_le (x + 1/2)
  have h2 := Int.floor_le (y + 1/2)
  push_cast
  linarith

theorem floor_half_add_upper (x y : ℚ) :
    ⌊x + y + 1/2⌋ ≤ ⌊x + 1/2⌋ + ⌊y + 1/2⌋ + 1 := by
  have h : ⌊x + y + 1/2⌋ < ⌊x + 1/2⌋ + ⌊y + 1/2⌋ + 2 := by
    apply Int.floor_lt.mpr
    have h1 := Int.lt_floor_add_one (x + 1/2)
    have h2 := Int.lt_floor_add_one (y + 1/2)
    push_cast
    linarith
  omega

/-- Independent half-up rounding of two summands and of their sum can
disagree by at most one unit in the fourth decimal place. -/
theorem round4q_add_close (a b : ℚ) :
    |round4q (a + b) - (round4q a + round4q b)| ≤ 1/10000 := by
  have hsplit : ((a + b) * 10000 + 1/2 : ℚ) = a * 10000 + b * 10000 + 1/2 := by
    ring
  have hlow := floor_half_add_lower (a * 10000) (b * 10000)
  have hhigh := floor_half_add_upper (a * 10000) (b * 10000)
  rw [round4q, round4q, round4q, hsplit, abs_le]
  constructor
  · have : ((⌊a * 10000 + 1/2⌋ + ⌊b * 10000 + 1/2⌋ - 1 : ℤ) : ℚ)
        ≤ ((⌊a * 10000 + b * 10000 + 1/2⌋ : ℤ) : ℚ) := by
      exact_mod_cast hlow
    push_cast at this
    linarith
  · have : ((⌊a * 10000 + b * 10000 + 1/2⌋ : ℤ) : ℚ)
        ≤ ((⌊a * 10000 + 1/2⌋ + ⌊b * 10000 + 1/2⌋ + 1 : ℤ) : ℚ) := by
      exact_mod_cast hhigh
    push_cast at this
    linarith

/-- CLAIM C1.  For every model whose pricing resolves to non-negative
per-1k rates and all non-negative token counts (with the configured fee
rate parsing to a number), the FeeCalculation returned by
calculateSandboxFee satisfies `total_cost_usd = base_cost_usd +
platform_fee_usd` within 0.0001, each output field being rounded to 4
decimals independently from the unrounded intermediates. -/
theorem claim1_total_within_tolerance (dbError : Bool)
    (overrides : List (String × ModelPricing)) (s : CacheState) (now : ℤ)
    (kv : FetchResult) (model : String) (promptTokens completionTokens : ℚ)
    (rate : ℚ) (p : ModelPricing) (s' : CacheState) (flag : Bool)
    (hres : getModelPricing dbError overrides s now kv model = (some p, s', flag))
    (hin : 0 ≤ p.input_per_1k_usd) (hout : 0 ≤ p.output_per_1k_usd)
    (hpt : 0 ≤ promptTokens) (hct : 0 ≤ completionTokens) :
    ∃ b f t : ℚ,
      (calculateSandboxFee dbError overrides s now kv (some rate) model
        promptTokens completionTokens).1
        = ⟨some b, some f, some t⟩ ∧ |t - (b + f)| ≤ 1/10000 := by
  simp only [calculateSandboxFee, hres, jMul, jAdd, round4_fin]
  refine ⟨_, _, _, rfl, ?_⟩
  exact round4q_add_close _ _

/-- Witness for C1 at a concrete input. -/
theorem claim1_witness :
    ∃ b f t : ℚ,
      (calculateSandboxFee false [("gpt-4o-mini", ⟨1/100, 3/100⟩)] ⟨none, 0⟩ 0
        .missing (some (1/5)) "gpt-4o-mini" 100 200).1
        = ⟨some b, some f, some t⟩ ∧ |t - (b + f)| ≤ 1/10000 :=
  claim1_total_within_tolerance false [("gpt-4o-mini", ⟨1/100, 3/100⟩)]
    ⟨none, 0⟩ 0 .missing "gpt-4o-mini" 100 200 (1/5) ⟨1/100, 3/100⟩ ⟨none, 0⟩
    false rfl (by norm_num) (by norm_num) (by norm_num) (by norm_num)

/-- CLAIM C2.  When pricing for the requested model resolves to 0.01 /
0.03 per 1k and the configured fee rate is 0.20, calculateSandboxFee
(model, 100, 200) returns exactly base 0.007, fee 0.0014, total 0.0084. -/
theorem claim2_concrete_fee (dbError : Bool)
    (overrides : List (String × ModelPricing)) (s : CacheState) (now : ℤ)
    (kv : FetchResult) (model : String) (s' : CacheState) (flag : Bool)
    (hres : getModelPricing dbError overrides s now kv model
      = (some ⟨0.01, 0.03⟩, s', flag)) :
    (calculateSandboxFee dbError overrides s now kv (some 0.20) model 100 200).1
      = ⟨some 0.007, some 0.0014, some 0.0084⟩ := by
  simp only [calculateSandboxFee, hres, jMul, jAdd, round4_fin]
  norm_num [round4q]

/-- Witness for C2: the pricing resolved through a concrete override
row for gpt-4o-mini. -/
theorem claim2_witness :
    (calculateSandboxFee false [("gpt-4o-mini", ⟨0.01, 0.03⟩)] ⟨none, 0⟩ 0
      .missing (some 0.20) "gpt-4o-mini" 100 200).1
      = ⟨some 0.007, some 0.0014, some 0.0084⟩ :=
  claim2_concrete_fee false [("gpt-4o-mini", ⟨0.01, 0.03⟩)] ⟨none, 0⟩ 0
    .missing "gpt-4o-mini" ⟨none, 0⟩ false rfl

/-- CLAIM C10.  If SANDBOX_FEE_RATE does not parse (parseFloat yields
NaN) then for a model with known pricing and positive token counts,
calculateSandboxFee returns NaN for platform_fee_usd and total_cost_usd
rather than the zero-cost result: the catch branch that converts thrown
failures to zeroFee is not reached, because NaN arithmetic throws
nothing. -/
theorem claim10_nan_fee_rate (dbError : Bool)
    (overrides : List (String × ModelPricing)) (s : CacheState) (now : ℤ)
    (kv : FetchResult) (model : String) (promptTokens completionTokens : ℚ)
    (p : ModelPricing) (s' : CacheState) (flag : Bool)
    (hres : getModelPricing dbError overrides s now kv model = (some p, s', flag))
    (hpt : 0 < promptTokens) (hct : 0 < completionTokens) :
    (calculateSandboxFee dbError overrides s now kv JNum.nan model
      promptTokens completionTokens).1.platform_fee_usd = JNum.nan ∧
    (calculateSandboxFee dbError overrides s now kv JNum.nan model
      promptTokens completionTokens).1.total_cost_usd = JNum.nan ∧
    (calculateSandboxFee dbError overrides s now kv JNum.nan model
      promptTokens completionTokens).1
      ≠ zeroFee := by
  refine ⟨?_, ?_, ?_⟩ <;>
    simp [calculateSandboxFee, hres, JNum.nan, jMul, jAdd, round4, jRound, jDiv,
      zeroFee]

/-- Witness for C10 at a concrete input. -/
theorem claim10_witness :
    (calculateSandboxFee false [("gpt-4o-mini", ⟨0.01, 0.03⟩)] ⟨none, 0⟩ 0
      .missing JNum.nan "gpt-4o-mini" 100 200).1.platform_fee_usd = JNum.nan ∧
    (calculateSandboxFee false [("gpt-4o-mini", ⟨0.01, 0.03⟩)] ⟨none, 0⟩ 0
      .missing JNum.nan "gpt-4o-mini" 100 200).1.total_cost_usd = JNum.nan ∧
    (calculateSandboxFee false [("gpt-4o-mini", ⟨0.01, 0.03⟩)] ⟨none, 0⟩ 0
      .missing JNum.nan "gpt-4o-mini" 100 200).1
      ≠ zeroFee :=
  claim10_nan_fee_rate false [("gpt-4o-mini", ⟨0.01, 0.03⟩)] ⟨none, 0⟩ 0
    .missing "gpt-4o-mini" 100 200 ⟨0.01, 0.03⟩ ⟨none, 0⟩ false rfl
    (by norm_num) (by norm_num)

/-- COUNTEREXAMPLE to C3 as stated.  State the cache as left by a
successful bulk fetch at t = 1000 (expiry 1000 + TTL).  A call at
now = 1000 + TTL (>= expiry) whose KV fetch throws does attempt the
fetch but does NOT reset the expiry to now + TTL: the catch leaves the
cache state untouched. -/
theorem claim3_counterexample :
    (getDefaultPricing ⟨some [("gpt-4o-mini", ⟨1, 2⟩)], 1000 + CACHE_TTL_MS⟩
      (1000 + CACHE_TTL_MS) .error).fetched = true ∧
    (getDefaultPricing ⟨some [("gpt-4o-mini", ⟨1, 2⟩)], 1000 + CACHE_TTL_MS⟩
      (1000 + CACHE_TTL_MS) .error).state.cacheExpiry
      ≠ (1000 + CACHE_TTL_MS) + CACHE_TTL_MS := by
  constructor
  · simp [getDefaultPricing, fetchFreshPricing]
  · simp only [getDefaultPricing, fetchFreshPricing, CACHE_TTL_MS]
    norm_num

/-- CLAIM C3 (amended).  After a successful bulk fetch at time t, every
call with now < t + TTL returns the identical cached table without
consulting the KV store and leaves the state unchanged; every call with
now >= t + TTL attempts a fresh fetch, and when that fetch succeeds with
data the expiry is reset to now + TTL (on a missing blob or a fetch
error an empty table is returned and the cache state is left
unchanged); and cache contents are never returned without a refresh
attempt unless now < cacheExpiry. -/
theorem claim3_cache_ttl (d : PricingData) (t now : ℤ) (kv : FetchResult) :
    (now < t + CACHE_TTL_MS →
      getDefaultPricing ⟨some d, t + CACHE_TTL_MS⟩ now kv
        = ⟨d, ⟨some d, t + CACHE_TTL_MS⟩, false⟩) ∧
    (t + CACHE_TTL_MS ≤ now →
      (getDefaultPricing ⟨some d, t + CACHE_TTL_MS⟩ now kv).fetched = true ∧
      (∀ d', kv = .ok d' →
        getDefaultPricing ⟨some d, t + CACHE_TTL_MS⟩ now kv
          = ⟨d', ⟨some d', now + CACHE_TTL_MS⟩, true⟩) ∧
      (kv = .missing ∨ kv = .error →
        getDefaultPricing ⟨some d, t + CACHE_TTL_MS⟩ now kv
          = ⟨[], ⟨some d, t + CACHE_TTL_MS⟩, true⟩)) ∧
    (∀ s : CacheState, (getDefaultPricing s now kv).fetched = false →
      s.pricingCache = some ((getDefaultPricing s now kv).data) ∧
      now < s.cacheExpiry) := by
  refine ⟨?_, ?_, ?_⟩
  · intro hlt
    simp [getDefaultPricing, hlt]
  · intro hge
    have hnot : ¬ now < t + CACHE_TTL_MS := not_lt.mpr hge
    refine ⟨?_, ?_, ?_⟩
    · simp [getDefaultPricing, hnot]
      cases kv <;> simp [fetchFreshPricing]
    · intro d' hkv
      subst hkv
      simp [getDefaultPricing, hnot, fetchFreshPricing]
    · rintro (hkv | hkv) <;> subst hkv <;>
        simp [getDefaultPricing, hnot, fetchFreshPricing]
  · intro s hf
    match hs : s.pricingCache with
    | none =>
      exfalso
      simp [getDefaultPricing, hs] at hf
      cases kv <;> simp [fetchFreshPricing] at hf
    | some c =>
      by_cases hlt : now < s.cacheExpiry
      · simp [getDefaultPricing, hs, hlt]
      · exfalso
        simp [getDefaultPricing, hs, hlt] at hf
        cases kv <;> simp [fetchFreshPricing] at hf

/-- Witness for C3 (amended) at concrete inputs. -/
theorem claim3_witness :
    getDefaultPricing ⟨some [("gpt-4o-mini", ⟨1, 2⟩)], 0 + CACHE_TTL_MS⟩ 7 .missing
      = ⟨[("gpt-4o-mini", ⟨1, 2⟩)], ⟨some [("gpt-4o-mini", ⟨1, 2⟩)], 0 + CACHE_TTL_MS⟩, false⟩ :=
  (claim3_cache_ttl [("gpt-4o-mini", ⟨1, 2⟩)] 0 7 .missing).1 (by norm_num [CACHE_TTL_MS])

/-- CLAIM C4.  A pricing_overrides row for a model is returned with
precedence over any bulk entry (the KV-cached bulk table is not even
consulted and the cache state is unchanged); the bulk table is consulted
only when no override row exists. -/
theorem claim4_override_precedence (overrides : List (String × ModelPricing))
    (s : CacheState) (now : ℤ) (kv : FetchResult) (model : String) :
    (∀ p : ModelPricing, overrides.lookup model = some p →
      getModelPricing false overrides s now kv model = (some p, s, false)) ∧
    (overrides.lookup model = none →
      getModelPricing false overrides s now kv model
        = ((getDefaultPricing s now kv).data.lookup model,
           (getDefaultPricing s now kv).state,
           (getDefaultPricing s now kv).fetched)) := by
  constructor
  · intro p hp
    simp [getModelPricing, hp]
  · intro hnone
    simp [getModelPricing, hnone]

/-- Witness for C4: an override row for gpt-4o-mini beats a conflicting
bulk-table entry, and the bulk cache state is untouched. -/
theorem claim4_witness :
    getModelPricing false [("gpt-4o-mini", ⟨1/100, 3/100⟩)]
      ⟨some [("gpt-4o-mini", ⟨7, 9⟩)], 99⟩ 5 .missing "gpt-4o-mini"
      = (some ⟨1/100, 3/100⟩, ⟨some [("gpt-4o-mini", ⟨7, 9⟩)], 99⟩, false) :=
  (claim4_override_precedence [("gpt-4o-mini", ⟨1/100, 3/100⟩)]
    ⟨some [("gpt-4o-mini", ⟨7, 9⟩)], 99⟩ 5 .missing "gpt-4o-mini").1
    ⟨1/100, 3/100⟩ rfl

/-- CLAIM C5.  validateApiKey returns the missing-credential failure
when neither header supplies a key; the invalid-credential failure when
the presented key matches no allow-list row by exact string equality;
and success carrying the matching row's id as keyId — with a bearer
Authorization header taking precedence over the X-Eliza-Cloud-Key
header. -/
theorem claim5_auth (allowList : List ApiKeyRecord)
    (authHeader keyHeader : Option String) (k : String) :
    (extractApiKey authHeader keyHeader = none →
      validateApiKey false allowList authHeader keyHeader
        = .err "Missing API key") ∧
    (extractApiKey authHeader keyHeader = some k → k ≠ "" →
      ((∀ r ∈ allowList, r.key ≠ k) →
        validateApiKey false allowList authHeader keyHeader
          = .err "Invalid API key") ∧
      (∀ r : ApiKeyRecord,
        allowList.find? (fun x => x.key == k) = some r →
        validateApiKey false allowList authHeader keyHeader = .ok r.id k)) ∧
    (∀ a : String, strStartsWith a "Bearer " = true →
      extractApiKey (some a) keyHeader = some (strDrop a 7)) := by
  refine ⟨?_, ?_, ?_⟩
  · intro hnone
    simp [validateApiKey, hnone]
  · intro hsome hne
    constructor
    · intro hall
      have hfind : allowList.find? (fun x => x.key == k) = none := by
        rw [List.find?_eq_none]
        intro x hx
        simpa using hall x hx
      simp [validateApiKey, hsome, hne, hfind]
    · intro r hr
      simp [validateApiKey, hsome, hne, hr]
  · intro a ha
    simp [extractApiKey, ha]

/-- Witness for C5: all three behaviours at concrete inputs. -/
theorem claim5_witness :
    validateApiKey false [⟨"key-1", "secret-1"⟩] none none
      = .err "Missing API key" ∧
    validateApiKey false [⟨"key-1", "secret-1"⟩] none (some "wrong")
      = .err "Invalid API key" ∧
    validateApiKey false [⟨"key-1", "secret-1"⟩] (some "Bearer secret-1") none
      = .ok "key-1" "secret-1" := by
  refine ⟨?_, ?_, ?_⟩
  · exact (claim5_auth [⟨"key-1", "secret-1"⟩] none none "").1 rfl
  · exact ((claim5_auth [⟨"key-1", "secret-1"⟩] none (some "wrong") "wrong").2.1
      rfl (by decide)).1 (by decide)
  · exact ((claim5_auth [⟨"key-1", "secret-1"⟩] (some "Bearer secret-1") none
      "secret-1").2.1 (by decide) (by decide)).2 ⟨"key-1", "secret-1"⟩ (by decide)

theorem validateChatRequest_accepts (body : JsonValue) :
    (validateChatRequest body).valid = acceptedChatRequest body := by
  cases body with
  | null => simp [validateChatRequest, acceptedChatRequest, jTruthy, jsTypeofIsObject]
  | bool b => simp [validateChatRequest, acceptedChatRequest, jTruthy, jsTypeofIsObject]
  | num q => simp [validateChatRequest, acceptedChatRequest, jTruthy, jsTypeofIsObject]
  | str s => simp [validateChatRequest, acceptedChatRequest, jTruthy, jsTypeofIsObject]
  | arr xs =>
    simp [validateChatRequest, acceptedChatRequest, jTruthy, jsTypeofIsObject,
      fieldTruthy, isStringField, getField]
  | obj fields =>
    cases hm : getField (.obj fields) "model" with
    | none =>
      have hmodel : fieldTruthy (.obj fields) "model" = false := by
        simp [fieldTruthy, hm]
      simp [validateChatRequest, acceptedChatRequest, jTruthy, jsTypeofIsObject,
        hm, hmodel]
    | some v =>
      cases v with
      | str s =>
        have hmodel : fieldTruthy (.obj fields) "model" = (s != "") := by
          simp [fieldTruthy, hm, jTruthy]
        have hstrf : isStringField (.obj fields) "model" = true := by
          simp [isStringField, hm]
        by_cases hs : s = ""
        · subst hs
          simp [validateChatRequest, acceptedChatRequest, jTruthy, jsTypeofIsObject,
            hm, hmodel, hstrf]
        · have hs2 : (s != "") = true := by simpa using hs
          cases hms : getField (.obj fields) "messages" with
          | none =>
            simp [validateChatRequest, acceptedChatRequest, jTruthy, jsTypeofIsObject,
              hm, hms, hmodel, hstrf, hs2]
          | some w =>
            cases w with
            | arr ms =>
              cases hemp : ms.isEmpty with
              | true =>
                simp [validateChatRequest, acceptedChatRequest, jTruthy,
                  jsTypeofIsObject, hm, hms, hmodel, hstrf, hs2, hemp]
              | false =>
                cases hall : ms.all
                    (fun m => fieldTruthy m "role" && fieldTruthy m "content") <;>
                  simp [validateChatRequest, acceptedChatRequest, jTruthy,
                    jsTypeofIsObject, hm, hms, hmodel, hstrf, hs2, hemp, hall,
                    -List.all_eq_true]
            | null =>
              simp [validateChatRequest, acceptedChatRequest, jTruthy,
                jsTypeofIsObject, hm, hms, hmodel, hstrf, hs2]
            | bool b =>
              simp [validateChatRequest, acceptedChatRequest, jTruthy,
                jsTypeofIsObject, hm, hms, hmodel, hstrf, hs2]
            | num q =>
              simp [validateChatRequest, acceptedChatRequest, jTruthy,
                jsTypeofIsObject, hm, hms, hmodel, hstrf, hs2]
            | str t =>
              simp [validateChatRequest, acceptedChatRequest, jTruthy,
                jsTypeofIsObject, hm, hms, hmodel, hstrf, hs2]
            | obj g =>
              simp [validateChatRequest, acceptedChatRequest, jTruthy,
                jsTypeofIsObject, hm, hms, hmodel, hstrf, hs2]
      | null =>
        have hstrf : isStringField (.obj fields) "model" = false := by
          simp [isStringField, hm]
        simp [validateChatRequest, acceptedChatRequest, jTruthy, jsTypeofIsObject,
          hm, hstrf]
      | bool b =>
        have hstrf : isStringField (.obj fields) "model" = false := by
          simp [isStringField, hm]
        simp [validateChatRequest, acceptedChatRequest, jTruthy, jsTypeofIsObject,
          hm, hstrf]
      | num q =>
        have hstrf : isStringField (.obj fields) "model" = false := by
          simp [isStringField, hm]
        simp [validateChatRequest, acceptedChatRequest, jTruthy, jsTypeofIsObject,
          hm, hstrf]
      | arr ys =>
        have hstrf : isStringField (.obj fields) "model" = false := by
          simp [isStringField, hm]
        simp [validateChatRequest, acceptedChatRequest, jTruthy, jsTypeofIsObject,
          hm, hstrf]
      | obj g =>
        have hstrf : isStringField (.obj fields) "model" = false := by
          simp [isStringField, hm]
        simp [validateChatRequest, acceptedChatRequest, jTruthy, jsTypeofIsObject,
          hm, hstrf]

/-- COUNTEREXAMPLE to C6 as stated: this body is an object with a
non-empty model string and a non-empty messages array whose single
message HAS both a role and a content field, so the claim says it is
accepted — but validateChatRequest rejects it (the empty-string role is
falsy). -/
theorem claim6_counterexample :
    claimedChatRequestOk (.obj [("model", .str "gpt-4"),
      ("messages", .arr [.obj [("role", .str ""), ("content", .str "hi")]])])
      = true ∧
    (validateChatRequest (.obj [("model", .str "gpt-4"),
      ("messages", .arr [.obj [("role", .str ""), ("content", .str "hi")]])])).valid
      = false := by
  decide

/-- CLAIM C6 (amended).  validateChatRequest accepts a body iff it is an
object whose model field is a non-empty string and whose messages field
is a non-empty array in which every message's role and content are
truthy (present and non-empty); any violation yields a terminal 400 and
the pipeline halts before pricing or usage recording. -/
theorem claim6_validation (body : JsonValue) :
    ((validateChatRequest body).valid = acceptedChatRequest body) ∧
    (∀ (env : PipelineEnv) (req : ChatRequest) (o : Except String Bool)
      (keyId apiKey : String),
      req.method = "POST" →
      validateApiKey env.authDbError env.allowList req.authHeader req.keyHeader
        = .ok keyId apiKey →
      req.body = .ok body →
      (validateChatRequest body).valid = false →
      (handleAgentChat env req o).response.status = 400 ∧
      (handleAgentChat env req o).pricingCalled = false ∧
      (handleAgentChat env req o).recordScheduled = false ∧
      (handleAgentChat env req o).recordedEvent = none) := by
  refine ⟨validateChatRequest_accepts body, ?_⟩
  intro env req o keyId apiKey hmethod hauth hbody hval
  have hm : (req.method != "POST") = false := by simp [hmethod]
  simp [handleAgentChat, hm, hauth, hbody, hval, createErrorResponse]

/-- Witness for C6 at concrete inputs: an empty messages array is
rejected and the pipeline returns 400 without pricing or recording. -/
theorem claim6_witness :
    (handleAgentChat
      ⟨[⟨"key-1", "secret-1"⟩], false, [], false, ⟨none, 0⟩, 0, .missing,
        some 0.20, none⟩
      ⟨"POST", none, some "secret-1", none,
        .ok (.obj [("model", .str "gpt-4"), ("messages", .arr [])]),
        ⟨"req-1", "hi", "gpt-4", 1, 2, 3⟩, 0, "meta-json"⟩
      (.ok true)).response.status = 400 ∧
    (handleAgentChat
      ⟨[⟨"key-1", "secret-1"⟩], false, [], false, ⟨none, 0⟩, 0, .missing,
        some 0.20, none⟩
      ⟨"POST", none, some "secret-1", none,
        .ok (.obj [("model", .str "gpt-4"), ("messages", .arr [])]),
        ⟨"req-1", "hi", "gpt-4", 1, 2, 3⟩, 0, "meta-json"⟩
      (.ok true)).pricingCalled = false ∧
    (handleAgentChat
      ⟨[⟨"key-1", "secret-1"⟩], false, [], false, ⟨none, 0⟩, 0, .missing,
        some 0.20, none⟩
      ⟨"POST", none, some "secret-1", none,
        .ok (.obj [("model", .str "gpt-4"), ("messages", .arr [])]),
        ⟨"req-1", "hi", "gpt-4", 1, 2, 3⟩, 0, "meta-json"⟩
      (.ok true)).recordScheduled = false ∧
    (handleAgentChat
      ⟨[⟨"key-1", "secret-1"⟩], false, [], false, ⟨none, 0⟩, 0, .missing,
        some 0.20, none⟩
      ⟨"POST", none, some "secret-1", none,
        .ok (.obj [("model", .str "gpt-4"), ("messages", .arr [])]),
        ⟨"req-1", "hi", "gpt-4", 1, 2, 3⟩, 0, "meta-json"⟩
      (.ok true)).recordedEvent = none :=
  (claim6_validation (.obj [("model", .str "gpt-4"), ("messages", .arr [])])).2
    ⟨[⟨"key-1", "secret-1"⟩], false, [], false, ⟨none, 0⟩, 0, .missing,
      some 0.20, none⟩
    ⟨"POST", none, some "secret-1", none,
      .ok (.obj [("model", .str "gpt-4"), ("messages", .arr [])]),
      ⟨"req-1", "hi", "gpt-4", 1, 2, 3⟩, 0, "meta-json"⟩
    (.ok true) "key-1" "secret-1" rfl (by decide) rfl (by decide)

theorem agentChatCatch_status_ne (m : String) : (agentChatCatch m).status ≠ 200 := by
  unfold agentChatCatch
  split_ifs <;> simp [createErrorResponse]

/-- A 200 response from handleAgentChat is exactly the
createResponseWithHeaders of the success path. -/
theorem handleAgentChat_status200 (env : PipelineEnv) (req : ChatRequest)
    (o : Except String Bool)
    (h : (handleAgentChat env req o).response.status = 200) :
    (handleAgentChat env req o).response
      = createResponseWithHeaders
          (buildElizaResp req.agent req.nowSec
            (calculateSandboxFee env.overrideDbError env.overrides env.cache
              env.nowMs env.kv env.feeRate req.agent.model
              req.agent.prompt_tokens req.agent.completion_tokens).1)
          (calculateSandboxFee env.overrideDbError env.overrides env.cache
            env.nowMs env.kv env.feeRate req.agent.model
            req.agent.prompt_tokens req.agent.completion_tokens).1
          (some req.agent.id) := by
  cases hmb : (req.method != "POST") with
  | true => simp [handleAgentChat, hmb, createErrorResponse] at h
  | false =>
    cases hauth : validateApiKey env.authDbError env.allowList req.authHeader
        req.keyHeader with
    | err e => simp [handleAgentChat, hmb, hauth, createErrorResponse] at h
    | ok keyId apiKey =>
      cases hbody : req.body with
      | error u => simp [handleAgentChat, hmb, hauth, hbody, createErrorResponse] at h
      | ok body =>
        cases hval : (validateChatRequest body).valid with
        | false =>
          simp [handleAgentChat, hmb, hauth, hbody, hval, createErrorResponse] at h
        | true =>
          cases hinit : env.initError with
          | some m =>
            simp [handleAgentChat, hmb, hauth, hbody, hval, hinit] at h
            exact absurd h (agentChatCatch_status_ne m)
          | none =>
            simp [handleAgentChat, hmb, hauth, hbody, hval, hinit]

/-- The response and the scheduled usage row do not depend on the
outcome of the usage insert. -/
theorem handleAgentChat_insert_indep (env : PipelineEnv) (req : ChatRequest)
    (o o' : Except String Bool) :
    (handleAgentChat env req o).response = (handleAgentChat env req o').response ∧
    (handleAgentChat env req o).recordedEvent
      = (handleAgentChat env req o').recordedEvent := by
  cases hmb : (req.method != "POST") with
  | true => simp [handleAgentChat, hmb]
  | false =>
    cases hauth : validateApiKey env.authDbError env.allowList req.authHeader
        req.keyHeader with
    | err e => simp [handleAgentChat, hmb, hauth]
    | ok keyId apiKey =>
      cases hbody : req.body with
      | error u => simp [handleAgentChat, hmb, hauth, hbody]
      | ok body =>
        cases hval : (validateChatRequest body).valid with
        | false => simp [handleAgentChat, hmb, hauth, hbody, hval]
        | true =>
          cases hinit : env.initError with
          | some m => simp [handleAgentChat, hmb, hauth, hbody, hval, hinit]
          | none => simp [handleAgentChat, hmb, hauth, hbody, hval, hinit]

/-- CLAIM C7.  A usage_events insert failure inside recordUsage is
caught and logged and never propagates (the promise always resolves);
the request's response and its scheduled usage row are independent of
the insert outcome, and a 200 response keeps its fee headers intact for
every insert outcome. -/
theorem claim7_recording_never_blocks :
    (∀ (keyId : String) (sessionId : Option String) (model : String)
       (usage : ElizaUsage) (feeCalculation : SandboxFeeCalculation)
       (requestId : String) (metadata : Option String) (nowSec : ℤ)
       (insertOutcome : Except String Bool),
      recordUsage keyId sessionId model usage feeCalculation requestId metadata
        nowSec insertOutcome = .ok ()) ∧
    (∀ (env : PipelineEnv) (req : ChatRequest) (o o' : Except String Bool),
      (handleAgentChat env req o).response = (handleAgentChat env req o').response) ∧
    (∀ (env : PipelineEnv) (req : ChatRequest) (o : Except String Bool),
      (handleAgentChat env req o).response.status = 200 →
      ("X-Eliza-Sandbox-Base-Cost-USD",
        HdrVal.num (calculateSandboxFee env.overrideDbError env.overrides env.cache
          env.nowMs env.kv env.feeRate req.agent.model req.agent.prompt_tokens
          req.agent.completion_tokens).1.base_cost_usd)
        ∈ (handleAgentChat env req o).response.headers ∧
      ("X-Eliza-Sandbox-Fee-USD",
        HdrVal.num (calculateSandboxFee env.overrideDbError env.overrides env.cache
          env.nowMs env.kv env.feeRate req.agent.model req.agent.prompt_tokens
          req.agent.completion_tokens).1.platform_fee_usd)
        ∈ (handleAgentChat env req o).response.headers ∧
      ("X-Eliza-Sandbox-Total-USD",
        HdrVal.num (calculateSandboxFee env.overrideDbError env.overrides env.cache
          env.nowMs env.kv env.feeRate req.agent.model req.agent.prompt_tokens
          req.agent.completion_tokens).1.total_cost_usd)
        ∈ (handleAgentChat env req o).response.headers) := by
  refine ⟨?_, ?_, ?_⟩
  · intro keyId sessionId model usage feeCalculation requestId metadata nowSec o
    cases o <;> rfl
  · intro env req o o'
    exact (handleAgentChat_insert_indep env req o o').1
  · intro env req o h
    rw [handleAgentChat_status200 env req o h]
    simp [createResponseWithHeaders]

/-- Witness for C7: a failing insert still resolves; the concrete
pipeline run returns the same response under a failing and a succeeding
insert, with the base-cost fee header present. -/
theorem claim7_witness :
    recordUsage "key-1" none "gpt-4o-mini"
      ⟨100, 200, 300, some 0, some 0, some 0⟩ zeroFee "req-1" (some "meta-json") 0
      (.error "D1 insert failed") = .ok () ∧
    (handleAgentChat
      ⟨[⟨"key-1", "secret-1"⟩], false, [("gpt-4o-mini", ⟨0.01, 0.03⟩)], false,
        ⟨none, 0⟩, 0, .missing, some 0.20, none⟩
      ⟨"POST", none, some "secret-1", none,
        .ok (.obj [("model", .str "gpt-4o-mini"),
          ("messages", .arr [.obj [("role", .str "user"), ("content", .str "hi")]])]),
        ⟨"req-1", "hello", "gpt-4o-mini", 100, 200, 300⟩, 0, "meta-json"⟩
      (.error "D1 insert failed")).response
    = (handleAgentChat
      ⟨[⟨"key-1", "secret-1"⟩], false, [("gpt-4o-mini", ⟨0.01, 0.03⟩)], false,
        ⟨none, 0⟩, 0, .missing, some 0.20, none⟩
      ⟨"POST", none, some "secret-1", none,
        .ok (.obj [("model", .str "gpt-4o-mini"),
          ("messages", .arr [.obj [("role", .str "user"), ("content", .str "hi")]])]),
        ⟨"req-1", "hello", "gpt-4o-mini", 100, 200, 300⟩, 0, "meta-json"⟩
      (.ok true)).response ∧
    ("X-Eliza-Sandbox-Base-Cost-USD",
      HdrVal.num (calculateSandboxFee false [("gpt-4o-mini", ⟨0.01, 0.03⟩)]
        ⟨none, 0⟩ 0 .missing (some 0.20) "gpt-4o-mini" 100 200).1.base_cost_usd)
      ∈ (handleAgentChat
      ⟨[⟨"key-1", "secret-1"⟩], false, [("gpt-4o-mini", ⟨0.01, 0.03⟩)], false,
        ⟨none, 0⟩, 0, .missing, some 0.20, none⟩
      ⟨"POST", none, some "secret-1", none,
        .ok (.obj [("model", .str "gpt-4o-mini"),
          ("messages", .arr [.obj [("role", .str "user"), ("content", .str "hi")]])]),
        ⟨"req-1", "hello", "gpt-4o-mini", 100, 200, 300⟩, 0, "meta-json"⟩
      (.error "D1 insert failed")).response.headers := by
  have h200 :
      (handleAgentChat
        ⟨[⟨"key-1", "secret-1"⟩], false, [("gpt-4o-mini", ⟨0.01, 0.03⟩)], false,
          ⟨none, 0⟩, 0, .missing, some 0.20, none⟩
        ⟨"POST", none, some "secret-1", none,
          .ok (.obj [("model", .str "gpt-4o-mini"),
            ("messages", .arr [.obj [("role", .str "user"), ("content", .str "hi")]])]),
          ⟨"req-1", "hello", "gpt-4o-mini", 100, 200, 300⟩, 0, "meta-json"⟩
        (.error "D1 insert failed")).response.status = 200 := by
    simp +decide [handleAgentChat, validateApiKey, extractApiKey, strTruthy,
      validateChatRequest, jTruthy, jsTypeofIsObject, fieldTruthy, isStringField,
      getField, List.find?, createResponseWithHeaders]
  exact ⟨claim7_recording_never_blocks.1 "key-1" none "gpt-4o-mini"
      ⟨100, 200, 300, some 0, some 0, some 0⟩ zeroFee "req-1" (some "meta-json") 0
      (.error "D1 insert failed"),
    claim7_recording_never_blocks.2.1
      ⟨[⟨"key-1", "secret-1"⟩], false, [("gpt-4o-mini", ⟨0.01, 0.03⟩)], false,
        ⟨none, 0⟩, 0, .missing, some 0.20, none⟩
      ⟨"POST", none, some "secret-1", none,
        .ok (.obj [("model", .str "gpt-4o-mini"),
          ("messages", .arr [.obj [("role", .str "user"), ("content", .str "hi")]])]),
        ⟨"req-1", "hello", "gpt-4o-mini", 100, 200, 300⟩, 0, "meta-json"⟩
      (.error "D1 insert failed") (.ok true),
    (claim7_recording_never_blocks.2.2
      ⟨[⟨"key-1", "secret-1"⟩], false, [("gpt-4o-mini", ⟨0.01, 0.03⟩)], false,
        ⟨none, 0⟩, 0, .missing, some 0.20, none⟩
      ⟨"POST", none, some "secret-1", none,
        .ok (.obj [("model", .str "gpt-4o-mini"),
          ("messages", .arr [.obj [("role", .str "user"), ("content", .str "hi")]])]),
        ⟨"req-1", "hello", "gpt-4o-mini", 100, 200, 300⟩, 0, "meta-json"⟩
      (.error "D1 insert failed") h200).1⟩

/-- COUNTEREXAMPLE to C8 as stated: a successful (200) run whose
response headers contain none of the names `X-Sandbox-Base-Cost-USD`,
`X-Sandbox-Fee-USD`, `X-Sandbox-Total-USD`, `X-Cloud-Request-Id` — the
code uses the `X-Eliza-`-prefixed names instead. -/
theorem claim8_counterexample :
    (handleAgentChat
      ⟨[⟨"key-1", "secret-1"⟩], false, [("gpt-4o-mini", ⟨0.01, 0.03⟩)], false,
        ⟨none, 0⟩, 0, .missing, some 0.20, none⟩
      ⟨"POST", none, some "secret-1", none,
        .ok (.obj [("model", .str "gpt-4o-mini"),
          ("messages", .arr [.obj [("role", .str "user"), ("content", .str "hi")]])]),
        ⟨"req-1", "hello", "gpt-4o-mini", 100, 200, 300⟩, 0, "meta-json"⟩
      (.ok true)).response.status = 200 ∧
    ((handleAgentChat
      ⟨[⟨"key-1", "secret-1"⟩], false, [("gpt-4o-mini", ⟨0.01, 0.03⟩)], false,
        ⟨none, 0⟩, 0, .missing, some 0.20, none⟩
      ⟨"POST", none, some "secret-1", none,
        .ok (.obj [("model", .str "gpt-4o-mini"),
          ("messages", .arr [.obj [("role", .str "user"), ("content", .str "hi")]])]),
        ⟨"req-1", "hello", "gpt-4o-mini", 100, 200, 300⟩, 0, "meta-json"⟩
      (.ok true)).response.headers.all
        (fun hdr => hdr.1 != "X-Sandbox-Base-Cost-USD" &&
          hdr.1 != "X-Sandbox-Fee-USD" && hdr.1 != "X-Sandbox-Total-USD" &&
          hdr.1 != "X-Cloud-Request-Id")) = true := by
  constructor <;>
    simp +decide [handleAgentChat, validateApiKey, extractApiKey, strTruthy,
      validateChatRequest, jTruthy, jsTypeofIsObject, fieldTruthy, isStringField,
      getField, List.find?, createResponseWithHeaders, strOrElse]

/-- CLAIM C8 (amended).  Every successful (200) response from the chat
pipeline carries the computed fee breakdown in the headers
`X-Eliza-Sandbox-Base-Cost-USD`, `X-Eliza-Sandbox-Fee-USD` and
`X-Eliza-Sandbox-Total-USD` (not the claimed un-prefixed names), plus
the request id in `X-Eliza-Cloud-Request-Id` whenever the response id is
non-empty, regardless of the underlying chat content. -/
theorem claim8_fee_headers (env : PipelineEnv) (req : ChatRequest)
    (o : Except String Bool)
    (h : (handleAgentChat env req o).response.status = 200) :
    ("X-Eliza-Sandbox-Base-Cost-USD",
      HdrVal.num (calculateSandboxFee env.overrideDbError env.overrides env.cache
        env.nowMs env.kv env.feeRate req.agent.model req.agent.prompt_tokens
        req.agent.completion_tokens).1.base_cost_usd)
      ∈ (handleAgentChat env req o).response.headers ∧
    ("X-Eliza-Sandbox-Fee-USD",
      HdrVal.num (calculateSandboxFee env.overrideDbError env.overrides env.cache
        env.nowMs env.kv env.feeRate req.agent.model req.agent.prompt_tokens
        req.agent.completion_tokens).1.platform_fee_usd)
      ∈ (handleAgentChat env req o).response.headers ∧
    ("X-Eliza-Sandbox-Total-USD",
      HdrVal.num (calculateSandboxFee env.overrideDbError env.overrides env.cache
        env.nowMs env.kv env.feeRate req.agent.model req.agent.prompt_tokens
        req.agent.completion_tokens).1.total_cost_usd)
      ∈ (handleAgentChat env req o).response.headers ∧
    (req.agent.id ≠ "" →
      ("X-Eliza-Cloud-Request-Id", HdrVal.str req.agent.id)
        ∈ (handleAgentChat env req o).response.headers) := by
  rw [handleAgentChat_status200 env req o h]
  refine ⟨?_, ?_, ?_, ?_⟩
  · simp [createResponseWithHeaders]
  · simp [createResponseWithHeaders]
  · simp [createResponseWithHeaders]
  · intro hid
    have hid2 : (req.agent.id != "") = true := by simpa using hid
    simp [createResponseWithHeaders, buildElizaResp, strTruthy, strOrElse, hid2]

/-- Witness for C8 (amended) at a concrete successful run. -/
theorem claim8_witness :
    ("X-Eliza-Sandbox-Base-Cost-USD",
      HdrVal.num (calculateSandboxFee false [("gpt-4o-mini", ⟨0.01, 0.03⟩)]
        ⟨none, 0⟩ 0 .missing (some 0.20) "gpt-4o-mini" 100 200).1.base_cost_usd)
      ∈ (handleAgentChat
      ⟨[⟨"key-1", "secret-1"⟩], false, [("gpt-4o-mini", ⟨0.01, 0.03⟩)], false,
        ⟨none, 0⟩, 0, .missing, some 0.20, none⟩
      ⟨"POST", none, some "secret-1", none,
        .ok (.obj [("model", .str "gpt-4o-mini"),
          ("messages", .arr [.obj [("role", .str "user"), ("content", .str "hi")]])]),
        ⟨"req-1", "hello", "gpt-4o-mini", 100, 200, 300⟩, 0, "meta-json"⟩
      (.ok true)).response.headers ∧
    ("X-Eliza-Cloud-Request-Id", HdrVal.str "req-1")
      ∈ (handleAgentChat
      ⟨[⟨"key-1", "secret-1"⟩], false, [("gpt-4o-mini", ⟨0.01, 0.03⟩)], false,
        ⟨none, 0⟩, 0, .missing, some 0.20, none⟩
      ⟨"POST", none, some "secret-1", none,
        .ok (.obj [("model", .str "gpt-4o-mini"),
          ("messages", .arr [.obj [("role", .str "user"), ("content", .str "hi")]])]),
        ⟨"req-1", "hello", "gpt-4o-mini", 100, 200, 300⟩, 0, "meta-json"⟩
      (.ok true)).response.headers := by
  have h200 :
      (handleAgentChat
        ⟨[⟨"key-1", "secret-1"⟩], false, [("gpt-4o-mini", ⟨0.01, 0.03⟩)], false,
          ⟨none, 0⟩, 0, .missing, some 0.20, none⟩
        ⟨"POST", none, some "secret-1", none,
          .ok (.obj [("model", .str "gpt-4o-mini"),
            ("messages", .arr [.obj [("role", .str "user"), ("content", .str "hi")]])]),
          ⟨"req-1", "hello", "gpt-4o-mini", 100, 200, 300⟩, 0, "meta-json"⟩
        (.ok true)).response.status = 200 := by
    simp +decide [handleAgentChat, validateApiKey, extractApiKey, strTruthy,
      validateChatRequest, jTruthy, jsTypeofIsObject, fieldTruthy, isStringField,
      getField, List.find?, createResponseWithHeaders]
  have happ := claim8_fee_headers
    ⟨[⟨"key-1", "secret-1"⟩], false, [("gpt-4o-mini", ⟨0.01, 0.03⟩)], false,
      ⟨none, 0⟩, 0, .missing, some 0.20, none⟩
    ⟨"POST", none, some "secret-1", none,
      .ok (.obj [("model", .str "gpt-4o-mini"),
        ("messages", .arr [.obj [("role", .str "user"), ("content", .str "hi")]])]),
      ⟨"req-1", "hello", "gpt-4o-mini", 100, 200, 300⟩, 0, "meta-json"⟩
    (.ok true) h200
  exact ⟨happ.1, happ.2.2.2 (by decide)⟩

/-- COUNTEREXAMPLE to C9 as stated: in the src/src/index.ts handler a
request without a session query parameter schedules a usage row whose
session_id is null — no sentinel is substituted. -/
theorem claim9_counterexample :
    ((handleAgentChat
      ⟨[⟨"key-1", "secret-1"⟩], false, [("gpt-4o-mini", ⟨0.01, 0.03⟩)], false,
        ⟨none, 0⟩, 0, .missing, some 0.20, none⟩
      ⟨"POST", none, some "secret-1", none,
        .ok (.obj [("model", .str "gpt-4o-mini"),
          ("messages", .arr [.obj [("role", .str "user"), ("content", .str "hi")]])]),
        ⟨"req-1", "hello", "gpt-4o-mini", 100, 200, 300⟩, 0, "meta-json"⟩
      (.ok true)).recordedEvent.map (fun e => e.session_id)) = some none ∧
    (handleAgentChat
      ⟨[⟨"key-1", "secret-1"⟩], false, [("gpt-4o-mini", ⟨0.01, 0.03⟩)], false,
        ⟨none, 0⟩, 0, .missing, some 0.20, none⟩
      ⟨"POST", none, some "secret-1", none,
        .ok (.obj [("model", .str "gpt-4o-mini"),
          ("messages", .arr [.obj [("role", .str "user"), ("content", .str "hi")]])]),
        ⟨"req-1", "hello", "gpt-4o-mini", 100, 200, 300⟩, 0, "meta-json"⟩
      (.ok true)).recordScheduled = true := by
  constructor <;>
    simp +decide [handleAgentChat, validateApiKey, extractApiKey, strTruthy,
      validateChatRequest, jTruthy, jsTypeofIsObject, fieldTruthy, isStringField,
      getField, List.find?, buildUsageEvent, extractSessionId]

/-- CLAIM C9 (amended).  On a request whose session query parameter is
absent, the variant worker src/unnamed/part_004 (like part_002/003)
threads the fixed sentinel "default-session" into the usage ledger,
while the src/src/index.ts handler threads null (no sentinel). -/
theorem claim9_session_default (env : PipelineEnv) (req : ChatRequest)
    (o : Except String Bool) (keyId apiKey : String) (body : JsonValue)
    (hm : req.method = "POST")
    (hauth : validateApiKey env.authDbError env.allowList req.authHeader
      req.keyHeader = .ok keyId apiKey)
    (hbody : req.body = .ok body)
    (hval : (validateChatRequest body).valid = true)
    (hinit : env.initError = none)
    (hsess : req.sessionParam = none) :
    ((handleAgentChatV4 env req o).recordedEvent.map (fun e => e.session_id))
      = some (some "default-session") ∧
    ((handleAgentChat env req o).recordedEvent.map (fun e => e.session_id))
      = some none := by
  have hmb : (req.method != "POST") = false := by simp [hm]
  constructor <;>
    simp [handleAgentChatV4, handleAgentChat, hmb, hauth, hbody, hval, hinit,
      hsess, buildUsageEvent, extractSessionId, strOrElse]

/-- Witness for C9 (amended) at a concrete request without a session
parameter. -/
theorem claim9_witness :
    ((handleAgentChatV4
      ⟨[⟨"key-1", "secret-1"⟩], false, [("gpt-4o-mini", ⟨0.01, 0.03⟩)], false,
        ⟨none, 0⟩, 0, .missing, some 0.20, none⟩
      ⟨"POST", none, some "secret-1", none,
        .ok (.obj [("model", .str "gpt-4o-mini"),
          ("messages", .arr [.obj [("role", .str "user"), ("content", .str "hi")]])]),
        ⟨"req-1", "hello", "gpt-4o-mini", 100, 200, 300⟩, 0, "meta-json"⟩
      (.ok true)).recordedEvent.map (fun e => e.session_id))
      = some (some "default-session") :=
  (claim9_session_default
    ⟨[⟨"key-1", "secret-1"⟩], false, [("gpt-4o-mini", ⟨0.01, 0.03⟩)], false,
      ⟨none, 0⟩, 0, .missing, some 0.20, none⟩
    ⟨"POST", none, some "secret-1", none,
      .ok (.obj [("model", .str "gpt-4o-mini"),
        ("messages", .arr [.obj [("role", .str "user"), ("content", .str "hi")]])]),
      ⟨"req-1", "hello", "gpt-4o-mini", 100, 200, 300⟩, 0, "meta-json"⟩
    (.ok true) "key-1" "secret-1"
    (.obj [("model", .str "gpt-4o-mini"),
      ("messages", .arr [.obj [("role", .str "user"), ("content", .str "hi")]])])
    rfl (by decide) rfl (by decide) rfl rfl).1
